import Mathlib

/-!
Verification of the Tap-and-Earn clicker-game backend (`server.py`).

The backend is CRUD-over-SQL against a single `players` table.  We embed the
table as a list of rows and each endpoint as a Lean function over that list,
translated statement-by-statement from the SQL and the Python code.

Two pieces of runtime-library semantics dominate the embedding:

* every connection is opened with `cursor_factory=RealDictCursor`, so every
  fetched row is a dict keyed by column NAME; a `RealDictRow` does not
  support the normal integer indexing, so each positional read in the file
  (`result[0]`, `stats[0]`, `total_result[0]`, ...) raises `KeyError: 0`.
  Each endpoint's blanket `except Exception` handler turns that into
  `HTTPException(500, str(e))`, and `str(KeyError(0))` is `"0"`.  Hence
  every endpoint that reads a fetched row back fails with HTTP 500; only
  `save_player` and `reset_player`, which read no rows, succeed.
* a `raise HTTPException` inside a `try` block is itself an `Exception` in
  Python, so it too is caught by the trailing `except Exception` handler
  and re-surfaced as a 500.

Fallible endpoints return `Except HTTPError`.  Nullable SQL array columns
are `Option (List String)`; `ORDER BY total_money DESC, total_clicks DESC`
is a stable sort (`List.insertionSort`) by the corresponding relation —
still needed, because it decides which failure branch `get_player_rank`
takes; timestamps are modelled as integers.
-/

namespace TapAndEarn

/-- A row of the `players` table.  The two array columns are nullable in the
schema, hence `Option`; timestamps are modelled as integers. -/
structure PlayerRow where
  player_id : String
  total_money : Int
  total_clicks : Int
  best_streak : Int
  owned_power_ups : Option (List String)
  achievements : Option (List String)
  created_at : Int
  updated_at : Int
  deriving Repr, DecidableEq

/-- The database state: the contents of the `players` table. -/
abbrev DB := List PlayerRow

/-- The body of a `POST /save` request (Pydantic model `PlayerData`). -/
structure PlayerData where
  total_money : Int
  total_clicks : Int
  best_streak : Int
  owned_power_ups : List String
  achievements : List String
  deriving Repr, DecidableEq

/-- The response `GET /api/player/{id}` tries to build (Pydantic model
`PlayerResponse`).  Under `RealDictCursor` the positional reads that would
fill it raise before construction, so no value of this type is ever
returned by the embedded endpoint. -/
structure PlayerResponse where
  player_id : String
  total_money : Int
  total_clicks : Int
  best_streak : Int
  owned_power_ups : List String
  achievements : List String
  deriving Repr, DecidableEq

/-- A structured HTTP failure (`HTTPException(status_code, detail)`). -/
structure HTTPError where
  status : Nat
  detail : String
  deriving Repr, DecidableEq

/-- The `{"success": ..., "message": ...}` acknowledgment returned by the
save and reset endpoints. -/
structure Ack where
  success : Bool
  message : String
  deriving Repr, DecidableEq

/-- The failure every positional row read produces: a `RealDictRow` has no
integer keys, so `result[0]` raises `KeyError(0)`; the handler re-raises
`HTTPException(500, str(e))` and `str(KeyError(0)) = "0"`. -/
def keyError500 : HTTPError := ⟨500, "0"⟩

/-- `SELECT ... FROM players WHERE player_id = %s` followed by `fetchone()`. -/
def findRow (db : DB) (pid : String) : Option PlayerRow :=
  db.find? (fun r => r.player_id = pid)

/-- `GET /api/player/{player_id}` (`get_player`), exposing the select/insert
race window.  The initial `SELECT` runs against the snapshot `dbSel`; by the
time the `INSERT` of the not-found branch executes, the table may have
changed to `dbIns` (a concurrent request may have inserted the same id).

Found path: `result` is a `RealDictRow`, so `PlayerResponse(result[0], ...)`
raises `KeyError: 0` → 500, no write happened.  Not-found path: an `INSERT`
onto an id already present violates the unique key, psycopg2 raises, the
handler rolls back → 500.  Otherwise the `INSERT ... RETURNING` succeeds
and `conn.commit()` persists the new row — and only then does
`PlayerResponse(result[0], ...)` raise `KeyError: 0` → 500 (the rollback in
the handler is a no-op after the commit, so the row stays).

The sequential (race-free) case is `get_player` below, with
`dbSel = dbIns`. -/
def get_player_raced (dbSel dbIns : DB) (pid : String) (now : Int) :
    Except HTTPError PlayerResponse × DB :=
  match findRow dbSel pid with
  | some _ => (Except.error keyError500, dbIns)
  | none =>
      if dbIns.any (fun r => r.player_id = pid) then
        (Except.error ⟨500, "duplicate key value violates unique constraint"⟩,
         dbIns)
      else
        let newRow : PlayerRow :=
          { player_id := pid, total_money := 0, total_clicks := 0,
            best_streak := 0, owned_power_ups := some [],
            achievements := some [], created_at := now, updated_at := now }
        (Except.error keyError500, dbIns ++ [newRow])

/-- `GET /api/player/{player_id}` with no concurrent writer. -/
def get_player (db : DB) (pid : String) (now : Int) :
    Except HTTPError PlayerResponse × DB :=
  get_player_raced db db pid now

/-- The row written for `pid` by the save upsert. -/
def savedRow (pid : String) (data : PlayerData) (created updated : Int) :
    PlayerRow :=
  { player_id := pid
    total_money := data.total_money
    total_clicks := data.total_clicks
    best_streak := data.best_streak
    owned_power_ups := some data.owned_power_ups
    achievements := some data.achievements
    created_at := created
    updated_at := updated }

/-- `POST /api/player/{player_id}/save` (`save_player`): an
`INSERT ... ON CONFLICT (player_id) DO UPDATE` upsert overwriting all five
mutable fields and refreshing `updated_at`.  The endpoint reads no rows
back, so (unlike the row-returning endpoints) it genuinely succeeds. -/
def save_player (db : DB) (pid : String) (data : PlayerData) (now : Int) :
    Ack × DB :=
  if db.any (fun r => r.player_id = pid) then
    (⟨true, "Data saved successfully"⟩,
     db.map (fun r =>
       if r.player_id = pid then savedRow pid data r.created_at now else r))
  else
    (⟨true, "Data saved successfully"⟩, db ++ [savedRow pid data now now])

/-- `DELETE /api/player/{player_id}/reset` (`reset_player`): an `UPDATE`
zeroing the three counters, emptying both arrays and refreshing `updated_at`
on the matching row; no row is inserted, no row is read back, and an update
matching zero rows still commits and reports success. -/
def reset_player (db : DB) (pid : String) (now : Int) : Ack × DB :=
  (⟨true, "Player data reset successfully"⟩,
   db.map (fun r =>
     if r.player_id = pid then
       { r with total_money := 0, total_clicks := 0, best_streak := 0,
                owned_power_ups := some [], achievements := some [],
                updated_at := now }
     else r))

/-- The `ORDER BY total_money DESC, total_clicks DESC` relation: `a` comes
no later than `b`. -/
def lbLE (a b : PlayerRow) : Prop :=
  b.total_money < a.total_money ∨
    (a.total_money = b.total_money ∧ b.total_clicks ≤ a.total_clicks)

instance : DecidableRel lbLE := fun a b => by
  unfold lbLE; infer_instance

/-- The positive-earnings population: `WHERE total_money > 0`. -/
def positives (db : DB) : DB :=
  db.filter (fun r => 0 < r.total_money)

/-- The filtered population in the order produced by
`ORDER BY total_money DESC, total_clicks DESC`. -/
def sortedPlayers (db : DB) : DB :=
  (positives db).insertionSort lbLE

/-- The `ranked_players` CTE (`ROW_NUMBER() OVER (ORDER BY total_money DESC,
total_clicks DESC)`) restricted to `WHERE player_id = %s`, followed by
`fetchone()`: the first row for `pid`, as `(rank, total_money)`, with ranks
counted from `i`.  In `get_player_rank` only the some/none outcome of this
query is observable — the `None` test at `if not result:` happens before
any positional read. -/
def findRank (pid : String) : Nat → List PlayerRow → Option (Nat × Int)
  | _, [] => none
  | i, r :: rs =>
      if r.player_id = pid then some (i, r.total_money)
      else findRank pid (i + 1) rs

/-- One row of the leaderboard response the loop tries to build; its first
positional read (`result[0]`) raises, so no value of this type is ever
produced by the embedded endpoint. -/
structure LeaderboardEntry where
  rank : Nat
  player_id : String
  total_money : Int
  total_clicks : Int
  best_streak : Int
  achievement_count : Nat
  power_up_count : Nat
  status : String
  last_active : Int
  deriving Repr, DecidableEq

/-- The `GET /api/leaderboard` response body the code tries to build. -/
structure LeaderboardResponse where
  leaderboard : List LeaderboardEntry
  total_players : Nat
  deriving Repr, DecidableEq

/-- `GET /api/leaderboard?limit=N` (`get_leaderboard`).  The select of the
positive earners ordered by (money desc, clicks desc) with `LIMIT %s`
succeeds, but under `RealDictCursor` the endpoint then fails on every
state: with a nonempty page the loop's first `result[0]` raises
`KeyError: 0`; with an empty page the loop is skipped and the count
query's `total_result[0]` raises `KeyError: 0`.  Either way the handler
returns HTTP 500 with detail `"0"`. -/
def get_leaderboard (db : DB) (limit : Nat) (_now : Int) :
    Except HTTPError LeaderboardResponse :=
  match (sortedPlayers db).take limit with
  | _ :: _ => Except.error keyError500
  | [] => Except.error keyError500

/-- The `global_stats` object the code tries to build. -/
structure GlobalStats where
  total_players : Int
  total_money_earned : Int
  total_clicks : Int
  highest_earnings : Int
  most_clicks : Int
  best_streak_global : Int
  average_money : Int
  average_clicks : Int
  active_players : Int
  daily_active_players : Int
  deriving Repr, DecidableEq

/-- `GET /api/stats` (`get_global_stats`).  The aggregate `SELECT` always
yields exactly one row, but the very first coalescing `int(stats[0] or 0)`
evaluates `stats[0]` on a `RealDictRow` and raises `KeyError: 0`, so the
endpoint returns HTTP 500 with detail `"0"` on every state — including the
empty population. -/
def get_global_stats (_db : DB) (_now : Int) : Except HTTPError GlobalStats :=
  Except.error keyError500

/-- The `GET /api/player/{id}/rank` response body the code tries to
build. -/
structure RankResponse where
  player_id : String
  rank : Nat
  total_players : Nat
  earnings : Int
  deriving Repr, DecidableEq

/-- `GET /api/player/{player_id}/rank` (`get_player_rank`).  When the
ranked CTE has no row for `pid`, `fetchone()` returns `None` and the code
raises `HTTPException(404, ...)` — but that raise happens inside the
`try`, so the `except Exception` handler catches it and re-raises
`HTTPException(500, str(e))`: the caller sees a 500 whose detail is the
stringified 404.  When the CTE does have a row, `if not result:` passes
(a `RealDictRow` is truthy), the count query runs, and
`total_result[0]` raises `KeyError: 0` → HTTP 500 with detail `"0"`.
The rank/percentile response is never produced. -/
def get_player_rank (db : DB) (pid : String) : Except HTTPError RankResponse :=
  match findRank pid 1 (sortedPlayers db) with
  | none => Except.error ⟨500, "404: Player not found or no earnings"⟩
  | some _ => Except.error keyError500

/-! ### Concrete states used to evaluate the endpoints -/

/-- A table whose only row has zero earnings: its player is absent from the
positive-earnings population. -/
def zeroMoneyDB : DB :=
  [{ player_id := "zed", total_money := 0, total_clicks := 7, best_streak := 2,
     owned_power_ups := some [], achievements := some [], created_at := 0,
     updated_at := 0 }]

/-- A freshly created row for `alice`, as a concurrent request would leave
the table. -/
def aliceRow : PlayerRow :=
  { player_id := "alice", total_money := 0, total_clicks := 0,
    best_streak := 0, owned_power_ups := some [], achievements := some [],
    created_at := 0, updated_at := 0 }

/-- The spec scenario's save payload for `alice`. -/
def aliceData : PlayerData := ⟨100, 50, 5, ["double_tap"], ["first_click"]⟩

/-- `alice` after her save: 100 money, 50 clicks. -/
def aliceScored : PlayerRow :=
  ⟨"alice", 100, 50, 5, some ["double_tap"], some ["first_click"], 1, 3⟩

/-- `bob` after his save: 200 money, 30 clicks. -/
def bobScored : PlayerRow := ⟨"bob", 200, 30, 2, some [], some [], 4, 4⟩

/-- The two-player table of the spec's concrete scenario. -/
def sampleDB : DB := [aliceScored, bobScored]

/-- A stored row whose two array columns are SQL `NULL`. -/
def nullArrayRow : PlayerRow := ⟨"nully", 5, 3, 1, none, none, 0, 0⟩

/-! ### Claims -/

/-- C1: the rank query for a player absent from the positive-earnings
population does NOT fail with 404: the `raise HTTPException(404, ...)` sits
inside the `try` block, the `except Exception` handler catches it and
re-raises a 500.  Concretely, `zed` has `total_money = 0` and the query
fails with status 500; in fact every failure of this endpoint carries
status 500 (the found path fails with the `KeyError` 500), so a 404 can
never reach the caller. -/
theorem get_player_rank_absent_fails_with_500 :
    get_player_rank zeroMoneyDB "zed" =
      Except.error ⟨500, "404: Player not found or no earnings"⟩ ∧
    ∀ (db : DB) (pid : String) (e : HTTPError),
      get_player_rank db pid = Except.error e → e.status = 500 := by
  refine ⟨by rfl, ?_⟩
  intro db pid e h
  unfold get_player_rank at h
  cases hf : findRank pid 1 (sortedPlayers db) with
  | none => rw [hf] at h; cases h; rfl
  | some p => rw [hf] at h; cases h; rfl

/-- C2, counterexample: the select sees no row for `alice`, a concurrent
request inserts her before our insert runs, and the operation surfaces a
500 instead of falling back to a fetch of the existing row. -/
theorem get_player_race_no_fallback :
    (get_player_raced [] [aliceRow] "alice" 1).1 =
      Except.error ⟨500, "duplicate key value violates unique constraint"⟩ := by
  rfl

/-- C2, amended: when fetch-or-create takes the insert path and the insert
hits a uniqueness conflict (the row was created concurrently), the generic
exception handler rolls the transaction back and surfaces an internal
error (HTTP 500); no fallback fetch of the existing row happens. -/
theorem get_player_insert_conflict_errors (dbSel dbIns : DB) (pid : String)
    (now : Int) (hsel : findRow dbSel pid = none)
    (hins : dbIns.any (fun r => r.player_id = pid) = true) :
    get_player_raced dbSel dbIns pid now =
      (Except.error ⟨500, "duplicate key value violates unique constraint"⟩,
       dbIns) := by
  unfold get_player_raced
  rw [hsel, hins]
  simp

/-- C2, witness for the amended claim at a concrete race. -/
theorem get_player_insert_conflict_errors_witness :
    get_player_raced [] [aliceRow] "alice" 1 =
      (Except.error ⟨500, "duplicate key value violates unique constraint"⟩,
       [aliceRow]) :=
  get_player_insert_conflict_errors [] [aliceRow] "alice" 1 (by decide)
    (by decide)

/-- C3: fetch-or-create on a previously-unseen id never returns the
all-zero record.  On the empty table, the first call commits the new
`alice` row and then fails with the `KeyError` 500 (the positional
`result[0]` on a `RealDictRow`); the second call takes the found path and
fails the same way; in general no call of the endpoint ever returns a
player record. -/
theorem fetch_or_create_keyerror_500 :
    ((get_player [] "alice" 1).1 = Except.error keyError500 ∧
     (get_player [] "alice" 1).2 =
       [{ player_id := "alice", total_money := 0, total_clicks := 0,
          best_streak := 0, owned_power_ups := some [],
          achievements := some [], created_at := 1, updated_at := 1 }] ∧
     (get_player (get_player [] "alice" 1).2 "alice" 2).1 =
       Except.error keyError500) ∧
    ∀ (dbSel dbIns : DB) (pid : String) (now : Int) (resp : PlayerResponse),
      (get_player_raced dbSel dbIns pid now).1 ≠ Except.ok resp := by
  refine ⟨⟨rfl, rfl, rfl⟩, ?_⟩
  intro dbSel dbIns pid now resp h
  unfold get_player_raced at h
  cases hf : findRow dbSel pid with
  | some r => rw [hf] at h; exact Except.noConfusion h
  | none =>
      rw [hf] at h
      dsimp only at h
      split at h <;> exact Except.noConfusion h

/-- C4: save itself succeeds and persists the full payload, but the
immediately following fetch fails with the `KeyError` 500 instead of
returning the saved values — the round trip never completes. -/
theorem save_then_fetch_keyerror_500 :
    (save_player [] "alice" aliceData 3).1.success = true ∧
    (save_player [] "alice" aliceData 3).2 =
      [savedRow "alice" aliceData 3 3] ∧
    (get_player (save_player [] "alice" aliceData 3).2 "alice" 4).1 =
      Except.error keyError500 :=
  ⟨rfl, rfl, rfl⟩

/-- C5: the leaderboard endpoint fails with the `KeyError` 500 on every
database state and every limit — with a nonempty page at the loop's first
`result[0]`, with an empty page at `total_result[0]` — so no filtered,
ordered, ranked, limited page is ever returned. -/
theorem leaderboard_always_500 :
    get_leaderboard sampleDB 10 0 = Except.error keyError500 ∧
    ∀ (db : DB) (limit : Nat) (now : Int),
      get_leaderboard db limit now = Except.error keyError500 := by
  have hgen : ∀ (db : DB) (limit : Nat) (now : Int),
      get_leaderboard db limit now = Except.error keyError500 := by
    intro db limit now
    unfold get_leaderboard
    split <;> rfl
  exact ⟨hgen sampleDB 10 0, hgen⟩

/-- C6: `bob` is present in the ranked CTE (first, with 200 earnings), yet
the rank endpoint fails with the `KeyError` 500 at `total_result[0]`
instead of returning rank/total/percentile/earnings; in general the
endpoint never returns a rank response. -/
theorem player_rank_found_keyerror_500 :
    findRank "bob" 1 (sortedPlayers sampleDB) = some (1, 200) ∧
    get_player_rank sampleDB "bob" = Except.error keyError500 ∧
    ∀ (db : DB) (pid : String) (resp : RankResponse),
      get_player_rank db pid ≠ Except.ok resp := by
  have h1 : findRank "bob" 1 (sortedPlayers sampleDB) = some (1, 200) := by
    decide
  refine ⟨h1, by unfold get_player_rank; rw [h1], ?_⟩
  intro db pid resp h
  unfold get_player_rank at h
  cases hf : findRank pid 1 (sortedPlayers db) with
  | none => rw [hf] at h; cases h
  | some p => rw [hf] at h; cases h

/-- C7: on the two-player scenario table both views fail with the
`KeyError` 500 — the leaderboard never emits a page and the rank endpoint
never emits a rank (here `alice` is second in the CTE with 100 earnings
but the response is still the 500) — so there are no rank fields in either
view to agree. -/
theorem leaderboard_and_rank_both_500 :
    get_leaderboard sampleDB 5 0 = Except.error keyError500 ∧
    findRank "alice" 1 (sortedPlayers sampleDB) = some (2, 100) ∧
    get_player_rank sampleDB "alice" = Except.error keyError500 := by
  have h1 : findRank "alice" 1 (sortedPlayers sampleDB) = some (2, 100) := by
    decide
  refine ⟨?_, h1, by unfold get_player_rank; rw [h1]⟩
  unfold get_leaderboard
  split <;> rfl

/-- C8: the statistics endpoint does return an error on the empty (and on
every other) population: the aggregate row is fetched, but `stats[0]`
raises `KeyError: 0` before any `int(x or 0)` coalescing can produce the
all-zero object, and the handler returns HTTP 500 with detail `"0"`. -/
theorem global_stats_keyerror_500 :
    get_global_stats [] 0 = Except.error keyError500 ∧
    get_global_stats zeroMoneyDB 0 = Except.error keyError500 ∧
    ∀ (db : DB) (now : Int),
      get_global_stats db now = Except.error keyError500 :=
  ⟨rfl, rfl, fun _ _ => rfl⟩

/-- C9: reset reports success; row-by-row, the updated table keeps every
`player_id` and `created_at`, zeroes the three counters and empties both
arrays of the matching row, and leaves every other row untouched; and for
an id present nowhere in the table the update matches zero rows, so the
table is unchanged (no row is created) while success is still reported. -/
theorem reset_player_frame (db : DB) (pid : String) (now : Int) :
    (reset_player db pid now).1.success = true ∧
    List.Forall₂ (fun r r' =>
      r'.player_id = r.player_id ∧ r'.created_at = r.created_at ∧
      (r.player_id = pid →
        r'.total_money = 0 ∧ r'.total_clicks = 0 ∧ r'.best_streak = 0 ∧
        r'.owned_power_ups = some [] ∧ r'.achievements = some []) ∧
      (r.player_id ≠ pid → r' = r)) db (reset_player db pid now).2 ∧
    ((∀ r ∈ db, r.player_id ≠ pid) → (reset_player db pid now).2 = db) := by
  refine ⟨rfl, ?_, ?_⟩
  · show List.Forall₂ _ db (db.map _)
    rw [List.forall₂_map_right_iff, List.forall₂_same]
    intro r _
    by_cases hp : r.player_id = pid
    · simp [hp]
    · simp [hp]
  · intro hall
    show db.map _ = db
    conv_rhs => rw [show db = db.map id from (List.map_id db).symm]
    refine List.map_congr_left ?_
    intro r hr
    simp [hall r hr]

/-- C10: a stored `NULL` in the array columns never comes back as an empty
list, because the fetch fails first: the found path raises `KeyError: 0`
at `result[0]` before the `result[4] or []` coalescing is reached, and the
endpoint returns the 500 instead of any record. -/
theorem null_arrays_fetch_keyerror_500 :
    findRow [nullArrayRow] "nully" = some nullArrayRow ∧
    nullArrayRow.owned_power_ups = none ∧
    nullArrayRow.achievements = none ∧
    (get_player [nullArrayRow] "nully" 0).1 = Except.error keyError500 :=
  ⟨rfl, rfl, rfl, rfl⟩

end TapAndEarn
